import Mathlib

/-!
# Chainlink web layer: job-run resolver and transfer endpoint

Shallow embedding of `core/web/resolver/job_run.go` (the GraphQL resolver of a
pipeline run) and of the transfer endpoint exercised by
`core/web/transfer_controller_test.go`.

Conventions of the embedding:

* a Go pointer `*T` is an `Option T` (`none` is the nil pointer);
* a Go `error` is represented by the string its `Error()` method returns;
* a Go function that may panic returns `Except Panic _`;
* a slice is a `List` (a nil slice and an empty slice are both `[]`).
-/

namespace Chainlink

/-! ## Types the resolver reads -/

/-- Go `time.Time`, as the signed offset of the instant from the zero time
`time.Time{}`. -/
structure Time where
  instant : Int
deriving DecidableEq, Repr

/-- The zero value `time.Time{}`. -/
def Time.zero : Time := ⟨0⟩

/-- The type `null.Time`: a timestamp together with its validity flag (`Valid`
is false for SQL NULL). -/
structure NullTime where
  Time : Time
  Valid : Bool
deriving DecidableEq, Repr

/-- The method `null.Time.ValueOrZero`: the zero time for an invalid value,
the inner time otherwise. -/
def NullTime.ValueOrZero (t : NullTime) : Chainlink.Time :=
  if !t.Valid then Chainlink.Time.zero else t.Time

/-- The type `graphql.Time`, a wrapper around `time.Time`. -/
structure GraphqlTime where
  Time : Time
deriving DecidableEq, Repr

/-- The type `pipeline.JSONSerializable`, restricted to the flag the resolver
reads (`Val` is only read by `Run.StringOutputs`). -/
structure JSONSerializable where
  Valid : Bool
deriving DecidableEq, Repr

/-- The type `pipeline.Run` as the resolver sees it. The three methods
`StringOutputs`, `StringFatalErrors` and `StringAllErrors` are defined in the
pipeline package; each is represented by the value it returns for this run:
`StringOutputs` by `(outputs, nil)` as `.ok outputs` or `(_, err)` as
`.error err.Error()`, the other two by their `[]*string`. -/
structure Run where
  ID : Int
  PipelineSpecID : Int
  Outputs : JSONSerializable
  StringOutputs : Except String (List (Option String))
  StringFatalErrors : List (Option String)
  StringAllErrors : List (Option String)
  CreatedAt : Time
  FinishedAt : NullTime

/-- A run-time panic of the Go program. -/
inductive Panic where
  | nilDereference
deriving DecidableEq, Repr

/-! ## `core/web/resolver/job_run.go` -/

/-- The package variable `outputRetrievalErrorStr`. -/
def outputRetrievalErrorStr : String := "error: unable to retrieve outputs"

/-- The resolver of one run. -/
structure JobRunResolver where
  run : Run

/-- The constructor `NewJobRun`. -/
def NewJobRun (run : Run) : JobRunResolver := { run := run }

/-- The constructor `NewJobRuns`: one resolver per run, in order. -/
def NewJobRuns (runs : List Run) : List JobRunResolver :=
  runs.foldl (fun resolvers run => resolvers ++ [NewJobRun run]) []

/-- The method `JobRunResolver.Outputs`. -/
def JobRunResolver.Outputs (r : JobRunResolver) : List (Option String) :=
  if !r.run.Outputs.Valid then
    [some outputRetrievalErrorStr]
  else
    match r.run.StringOutputs with
    | .error err =>
      let errMsg := err
      [some errMsg]
    | .ok outputs => outputs

/-- The loop `for _, err := range ptrs { errs = append(errs, *err) }` shared by
`FatalErrors` and `AllErrors`: `errs` is the slice built so far; dereferencing
a nil entry panics. -/
def derefAppend : List String → List (Option String) → Except Panic (List String)
  | errs, [] => .ok errs
  | _, none :: _ => .error Panic.nilDereference
  | errs, some s :: rest => derefAppend (errs ++ [s]) rest

/-- The method `JobRunResolver.FatalErrors`. -/
def JobRunResolver.FatalErrors (r : JobRunResolver) : Except Panic (List String) :=
  derefAppend [] r.run.StringFatalErrors

/-- The method `JobRunResolver.AllErrors`. -/
def JobRunResolver.AllErrors (r : JobRunResolver) : Except Panic (List String) :=
  derefAppend [] r.run.StringAllErrors

/-- The method `JobRunResolver.CreatedAt`. -/
def JobRunResolver.CreatedAt (r : JobRunResolver) : GraphqlTime :=
  { Time := r.run.CreatedAt }

/-- The method `JobRunResolver.FinishedAt`: a pointer to a freshly built
`graphql.Time`. -/
def JobRunResolver.FinishedAt (r : JobRunResolver) : Option GraphqlTime :=
  some { Time := r.run.FinishedAt.ValueOrZero }

/-- A finished run with one output and no errors, used as the base of the
concrete runs below. -/
def sampleRun : Run :=
  { ID := 7
    PipelineSpecID := 3
    Outputs := { Valid := true }
    StringOutputs := .ok [some "42"]
    StringFatalErrors := []
    StringAllErrors := []
    CreatedAt := { instant := 1000 }
    FinishedAt := { Time := { instant := 2000 }, Valid := true } }

/-! ## The transfer endpoint (`POST /v2/transfers`) -/

/-- A 20-byte account address as a number; the zero address is `0`. -/
abbrev Address := Nat

/-- The zero address `0x0000000000000000000000000000000000000000`. -/
def ZeroAddress : Address := 0

/-- The request `models.SendEtherRequest` built by the tests. `Amount` is an
arbitrary-precision integer. -/
structure SendEtherRequest where
  DestinationAddress : Address
  FromAddress : Address
  Amount : Int
  AllowHigherAmounts : Bool
deriving DecidableEq, Repr

/-- A request body: its text and the outcome of deserializing it into a
transfer request (`none` when it does not deserialize into a well-formed
request). The JSON binding itself belongs to the HTTP framework. -/
structure Body where
  raw : String
  bound : Option SendEtherRequest
deriving DecidableEq, Repr

/-- The errors of a transfer. `InvalidDestination`, `InsufficientBalance` and
`MalformedRequest` are the names of the spec; `ZeroFromAddress` stands for the
rejection that `TestTransfersController_TransferZeroAddressError` observes for
a request sent from the zero address, which the spec does not name. -/
inductive TransferError where
  | InvalidDestination
  | ZeroFromAddress
  | InsufficientBalance
  | MalformedRequest
deriving DecidableEq, Repr

/-- The chain client as mocked by the tests: `PendingNonceAt` and `BalanceAt`. -/
structure EthClient where
  PendingNonceAt : Address → Nat
  BalanceAt : Address → Int

/-- A persisted transaction row (`eth_txes`): sender, nonce, recipient, value. -/
structure Transaction where
  sender : Address
  nonce : Nat
  recipient : Address
  value : Int
deriving DecidableEq, Repr

/-- The state of the node that a transfer can touch: the next nonce of each
sender that has been used (`none` before the first use), the persisted
transaction rows, and the number of tasks dispatched so far. -/
structure NodeState where
  nonces : Address → Option Nat
  txes : List Transaction
  dispatched : Nat

/-- A node that has persisted nothing yet. -/
def NodeState.fresh : NodeState :=
  { nonces := fun _ => none, txes := [], dispatched := 0 }

/-- Modelled from the spec: `NonceManager.Reserve`, not among the sources. The
counter of an address is seeded from the on-chain pending nonce on first use;
the reserved value is returned and the counter incremented. -/
def Reserve (eth : EthClient) (s : NodeState) (address : Address) : Nat × NodeState :=
  let nonce := (s.nonces address).getD (eth.PendingNonceAt address)
  (nonce, { s with nonces := Function.update s.nonces address (some (nonce + 1)) })

/-- Modelled from the spec: the transaction-submission task, not among the
sources. Pre-broadcast validation, fatal on failure: the destination must not
be the zero address (`InvalidDestination`); unless `AllowHigherAmounts` is set
the amount must be at most the sender's on-chain balance
(`InsufficientBalance`). A request that passes reserves a nonce for the sender
and persists one transaction; a request that fails touches neither. Between
the two checks of the spec stands the one the tests show: a request from the
zero address to a non-zero destination is rejected before the chain is asked
for a balance (`TestTransfersController_TransferZeroAddressError` mocks no
chain call and expects 422). -/
def sendEtherTask (eth : EthClient) (s : NodeState) (req : SendEtherRequest) :
    Except TransferError Transaction × NodeState :=
  if req.DestinationAddress = ZeroAddress then
    (.error TransferError.InvalidDestination, s)
  else if req.FromAddress = ZeroAddress then
    (.error TransferError.ZeroFromAddress, s)
  else if !req.AllowHigherAmounts && decide (eth.BalanceAt req.FromAddress < req.Amount) then
    (.error TransferError.InsufficientBalance, s)
  else
    let (nonce, s1) := Reserve eth s req.FromAddress
    let tx : Transaction :=
      { sender := req.FromAddress, nonce := nonce
        recipient := req.DestinationAddress, value := req.Amount }
    (.ok tx, { s1 with txes := s1.txes ++ [tx] })

/-- The answer of the endpoint: the HTTP status and the error list of the
body. -/
structure Response where
  status : Nat
  errors : List TransferError
deriving DecidableEq, Repr

/-- Modelled from the spec: the transfer endpoint `TransfersController.Create`,
of which only the tests are among the sources. A body that does not
deserialize is answered 400 and nothing is dispatched; otherwise the task is
dispatched, its fatal validation errors are answered 422, and anything else
200 with an empty error list. -/
def TransfersController.Create (eth : EthClient) (s : NodeState) (body : Body) :
    Response × NodeState :=
  match body.bound with
  | none => ({ status := 400, errors := [TransferError.MalformedRequest] }, s)
  | some req =>
    match sendEtherTask eth { s with dispatched := s.dispatched + 1 } req with
    | (.error e, s1) => ({ status := 422, errors := [e] }, s1)
    | (.ok _, s1) => ({ status := 200, errors := [] }, s1)

/-- The destination address used by the tests,
`0xFA01FA015C8A5332987319823728982379128371`. -/
def testDestination : Address := 0xFA01FA015C8A5332987319823728982379128371

/-- The body the tests build with `json.Marshal` from a request: it binds
to that request. Its text plays no part and is left empty. -/
def requestBody (req : SendEtherRequest) : Body :=
  { raw := "", bound := some req }

/-- The sender of the test requests, standing for the address of the random
key the tests generate. -/
def testSender : Address := 0x9CA9d2D5E04012C9Ed24C0e513C9bfAa4A2dD77f

/-- The request of the tests: 100 from the test sender to the test
destination, higher amounts not allowed. -/
def testRequest : SendEtherRequest :=
  { DestinationAddress := testDestination
    FromAddress := testSender
    Amount := 100
    AllowHigherAmounts := false }

/-- A chain client on which every account has the given balance and pending
nonce 1, as the mocks of the tests. -/
def ethClientWithBalance (balance : Int) : EthClient :=
  { PendingNonceAt := fun _ => 1, BalanceAt := fun _ => balance }

/-! ## Lemmas about the dereferencing loop -/

theorem derefAppend_map_some (errs xs : List String) :
    derefAppend errs (xs.map some) = .ok (errs ++ xs) := by
  induction xs generalizing errs with
  | nil => simp [derefAppend]
  | cons x rest ih => simp [derefAppend, ih]

theorem eq_map_some_of_all_present (ptrs : List (Option String))
    (h : ∀ e ∈ ptrs, e ≠ none) : ∃ xs : List String, ptrs = xs.map some := by
  induction ptrs with
  | nil => exact ⟨[], rfl⟩
  | cons p rest ih =>
    obtain ⟨xs, hxs⟩ := ih (fun e he => h e (List.mem_cons_of_mem p he))
    cases p with
    | none => exact absurd rfl (h none (List.mem_cons_self none rest))
    | some x => exact ⟨x :: xs, by simp [hxs]⟩

theorem derefAppend_of_all_present (ptrs : List (Option String))
    (h : ∀ e ∈ ptrs, e ≠ none) :
    ∃ xs : List String, derefAppend [] ptrs = .ok xs ∧ xs.map some = ptrs := by
  obtain ⟨xs, hxs⟩ := eq_map_some_of_all_present ptrs h
  exact ⟨xs, by rw [hxs, derefAppend_map_some]; simp, hxs.symm⟩

/-! ## Outputs -/

/-- C1: for every run whose Outputs value is not valid, `Outputs` returns the
one-element list holding the literal "error: unable to retrieve outputs",
whatever `StringOutputs` would return for the run. -/
theorem Outputs_of_invalid (run : Run) (stringOutputs : Except String (List (Option String)))
    (h : run.Outputs.Valid = false) :
    (NewJobRun { run with StringOutputs := stringOutputs }).Outputs
      = [some "error: unable to retrieve outputs"] := by
  simp [JobRunResolver.Outputs, NewJobRun, h, outputRetrievalErrorStr]

theorem Outputs_of_invalid_witness :
    ({ sampleRun with Outputs := { Valid := false } } : Run).Outputs.Valid = false ∧
    (NewJobRun { ({ sampleRun with Outputs := { Valid := false } } : Run) with
        StringOutputs := .error "unable to process output type string" }).Outputs
      = [some "error: unable to retrieve outputs"] :=
  ⟨rfl, Outputs_of_invalid _ _ rfl⟩

/-- C2, as stated, fails: a run with valid Outputs whose `StringOutputs` fails
with the error "unable to process output type string" is answered with that
message, not with the retrieval-error sentinel. -/
theorem Outputs_serialization_error_not_sentinel :
    (NewJobRun { sampleRun with
        StringOutputs := .error "unable to process output type string" }).Outputs
      = [some "unable to process output type string"] ∧
    (NewJobRun { sampleRun with
        StringOutputs := .error "unable to process output type string" }).Outputs
      ≠ [some "error: unable to retrieve outputs"] := by
  refine ⟨rfl, ?_⟩
  simp [JobRunResolver.Outputs, NewJobRun, sampleRun]

/-- C2, amended: for every run whose Outputs value is valid and whose
`StringOutputs` fails, `Outputs` returns the one-element list holding the
message of that error. -/
theorem Outputs_of_serialization_error (run : Run) (err : String)
    (hv : run.Outputs.Valid = true) (he : run.StringOutputs = .error err) :
    (NewJobRun run).Outputs = [some err] := by
  simp [JobRunResolver.Outputs, NewJobRun, hv, he]

theorem Outputs_of_serialization_error_witness :
    ({ sampleRun with StringOutputs := .error "boom" } : Run).Outputs.Valid = true ∧
    ({ sampleRun with StringOutputs := .error "boom" } : Run).StringOutputs = .error "boom" ∧
    (NewJobRun { sampleRun with StringOutputs := .error "boom" }).Outputs = [some "boom"] :=
  ⟨rfl, rfl, Outputs_of_serialization_error _ _ rfl rfl⟩

/-- C8, as stated, fails: a run with valid Outputs whose `StringOutputs`
succeeds with no element is answered with the empty list. -/
theorem Outputs_empty_for_empty_outputs :
    (NewJobRun { sampleRun with StringOutputs := .ok [] }).Outputs = [] ∧
    (NewJobRun { sampleRun with StringOutputs := .ok [] }).Outputs.length = 0 := by
  exact ⟨rfl, rfl⟩

/-- C8, amended: `Outputs` returns a one-element list whenever the Outputs value
is not valid or `StringOutputs` fails: the element is the literal
"error: unable to retrieve outputs" when the value is not valid, and the
message of the error when the value is valid and `StringOutputs` fails. When
the value is valid and `StringOutputs` succeeds, `Outputs` returns that list
unchanged, so the result is empty exactly when that list is. -/
theorem Outputs_nonempty_or_passthrough (run : Run) :
    (run.Outputs.Valid = false →
      (NewJobRun run).Outputs = [some "error: unable to retrieve outputs"] ∧
      (NewJobRun run).Outputs.length = 1) ∧
    (∀ err, run.Outputs.Valid = true → run.StringOutputs = .error err →
      (NewJobRun run).Outputs = [some err] ∧ (NewJobRun run).Outputs.length = 1) ∧
    (∀ outputs, run.Outputs.Valid = true → run.StringOutputs = .ok outputs →
      (NewJobRun run).Outputs = outputs ∧
      ((NewJobRun run).Outputs = [] ↔ outputs = [])) := by
  refine ⟨fun h => ?_, fun err hv he => ?_, fun outputs hv ho => ?_⟩
  · simp [JobRunResolver.Outputs, NewJobRun, h, outputRetrievalErrorStr]
  · simp [JobRunResolver.Outputs, NewJobRun, hv, he]
  · simp [JobRunResolver.Outputs, NewJobRun, hv, ho]

theorem Outputs_nonempty_or_passthrough_witness :
    (({ sampleRun with Outputs := { Valid := false } } : Run).Outputs.Valid = false ∧
      (NewJobRun { sampleRun with Outputs := { Valid := false } }).Outputs
        = [some "error: unable to retrieve outputs"]) ∧
    (({ sampleRun with StringOutputs := .error "bad output" } : Run).Outputs.Valid = true ∧
      ({ sampleRun with StringOutputs := .error "bad output" } : Run).StringOutputs
        = .error "bad output" ∧
      (NewJobRun { sampleRun with StringOutputs := .error "bad output" }).Outputs
        = [some "bad output"]) ∧
    (sampleRun.Outputs.Valid = true ∧ sampleRun.StringOutputs = .ok [some "42"] ∧
      (NewJobRun sampleRun).Outputs = [some "42"]) :=
  ⟨⟨rfl, ((Outputs_nonempty_or_passthrough
      { sampleRun with Outputs := { Valid := false } }).1 rfl).1⟩,
   ⟨rfl, rfl, ((Outputs_nonempty_or_passthrough
      { sampleRun with StringOutputs := .error "bad output" }).2.1 _ rfl rfl).1⟩,
   ⟨rfl, rfl, ((Outputs_nonempty_or_passthrough sampleRun).2.2 _ rfl rfl).1⟩⟩

/-! ## FinishedAt -/

/-- C3, as stated, fails: for a run that has not finished (its FinishedAt is
not valid) `FinishedAt` does not return null; it returns a timestamp, and that
timestamp is the zero time. -/
theorem FinishedAt_unfinished_not_null :
    (NewJobRun { sampleRun with
        FinishedAt := { Time := Time.zero, Valid := false } }).FinishedAt ≠ none ∧
    (NewJobRun { sampleRun with
        FinishedAt := { Time := Time.zero, Valid := false } }).FinishedAt
      = some { Time := Time.zero } := by
  refine ⟨?_, rfl⟩
  simp [JobRunResolver.FinishedAt]

/-- C3, amended: `FinishedAt` never returns null. For a finished run it returns
the run's FinishedAt; for a run that has not finished it returns the zero
time. -/
theorem FinishedAt_value_or_zero (run : Run) :
    (NewJobRun run).FinishedAt
      = some { Time := if run.FinishedAt.Valid = true then run.FinishedAt.Time
                       else Time.zero } := by
  cases hv : run.FinishedAt.Valid <;>
    simp [JobRunResolver.FinishedAt, NewJobRun, NullTime.ValueOrZero, hv]

/-! ## FatalErrors and AllErrors -/

/-- C7: for every run whose fatal-error and all-error entries are all present,
`FatalErrors` returns the strings the entries of `StringFatalErrors` point to,
same length and same order, and `AllErrors` does the same for
`StringAllErrors`. -/
theorem errors_surfaced_in_order (run : Run)
    (hf : ∀ e ∈ run.StringFatalErrors, e ≠ none)
    (ha : ∀ e ∈ run.StringAllErrors, e ≠ none) :
    ∃ fatal all : List String,
      (NewJobRun run).FatalErrors = .ok fatal ∧
      (NewJobRun run).AllErrors = .ok all ∧
      fatal.length = run.StringFatalErrors.length ∧
      all.length = run.StringAllErrors.length ∧
      (∀ i : Nat, run.StringFatalErrors[i]? = (fatal[i]?).map some) ∧
      (∀ i : Nat, run.StringAllErrors[i]? = (all[i]?).map some) := by
  obtain ⟨fatal, hfe, hfm⟩ := derefAppend_of_all_present _ hf
  obtain ⟨all, hae, ham⟩ := derefAppend_of_all_present _ ha
  refine ⟨fatal, all, hfe, hae, ?_, ?_, ?_, ?_⟩
  · rw [← hfm, List.length_map]
  · rw [← ham, List.length_map]
  · intro i
    rw [← hfm, List.getElem?_map]
  · intro i
    rw [← ham, List.getElem?_map]

theorem errors_surfaced_in_order_witness :
    ∃ fatal all : List String,
      (NewJobRun { sampleRun with
          StringFatalErrors := [some "a", some "b"]
          StringAllErrors := [some "a", some "r", some "b"] }).FatalErrors = .ok fatal ∧
      (NewJobRun { sampleRun with
          StringFatalErrors := [some "a", some "b"]
          StringAllErrors := [some "a", some "r", some "b"] }).AllErrors = .ok all ∧
      fatal.length = [some "a", some "b"].length ∧
      all.length = [some "a", some "r", some "b"].length ∧
      (∀ i : Nat, [some "a", some "b"][i]? = (fatal[i]?).map some) ∧
      (∀ i : Nat, [some "a", some "r", some "b"][i]? = (all[i]?).map some) :=
  errors_surfaced_in_order
    { sampleRun with
      StringFatalErrors := [some "a", some "b"]
      StringAllErrors := [some "a", some "r", some "b"] }
    (by simp) (by simp)

/-- C10 fails on the code: for a run whose `StringFatalErrors` holds a null
entry `FatalErrors` panics on the nil dereference, and likewise `AllErrors`
for a null entry of `StringAllErrors`; neither returns a list. -/
theorem errors_panic_on_null_entry :
    (NewJobRun { sampleRun with
        StringFatalErrors := [none] }).FatalErrors = .error Panic.nilDereference ∧
    (NewJobRun { sampleRun with
        StringAllErrors := [some "a", none] }).AllErrors = .error Panic.nilDereference :=
  ⟨rfl, rfl⟩

/-- C4, as stated, fails: for the run whose `StringFatalErrors` is the one
entry "x" and whose `StringAllErrors` is empty, `FatalErrors` returns the
message "x" and `AllErrors` returns the empty list, which does not hold it. -/
theorem fatalErrors_not_in_allErrors :
    (NewJobRun { sampleRun with
        StringFatalErrors := [some "x"], StringAllErrors := [] }).FatalErrors = .ok ["x"] ∧
    (NewJobRun { sampleRun with
        StringFatalErrors := [some "x"], StringAllErrors := [] }).AllErrors = .ok [] ∧
    "x" ∈ ["x"] ∧ "x" ∉ ([] : List String) := by
  refine ⟨rfl, rfl, ?_, ?_⟩ <;> simp

/-- C4, amended: for every run whose fatal-error and all-error entries are all
present, `FatalErrors` and `AllErrors` both return, and every message returned
by `FatalErrors` occurs in the list returned by `AllErrors` if and only if
every entry of the run's `StringFatalErrors` occurs in its
`StringAllErrors`. -/
theorem fatalErrors_subset_allErrors_iff (run : Run)
    (hf : ∀ e ∈ run.StringFatalErrors, e ≠ none)
    (ha : ∀ e ∈ run.StringAllErrors, e ≠ none) :
    ∃ fatal all : List String,
      (NewJobRun run).FatalErrors = .ok fatal ∧
      (NewJobRun run).AllErrors = .ok all ∧
      ((∀ msg ∈ fatal, msg ∈ all) ↔
        (∀ e ∈ run.StringFatalErrors, e ∈ run.StringAllErrors)) := by
  obtain ⟨fatal, hfe, hfm⟩ := derefAppend_of_all_present _ hf
  obtain ⟨all, hae, ham⟩ := derefAppend_of_all_present _ ha
  refine ⟨fatal, all, hfe, hae, ?_⟩
  rw [← hfm, ← ham]
  constructor
  · intro h e he
    obtain ⟨m, hm, rfl⟩ := List.mem_map.mp he
    exact List.mem_map.mpr ⟨m, h m hm, rfl⟩
  · intro h msg hmsg
    obtain ⟨m, hm, hmm⟩ := List.mem_map.mp (h (some msg) (List.mem_map.mpr ⟨msg, hmsg, rfl⟩))
    cases hmm
    exact hm

theorem fatalErrors_subset_allErrors_iff_witness :
    ∃ fatal all : List String,
      (NewJobRun { sampleRun with
          StringFatalErrors := [some "boom"]
          StringAllErrors := [some "retry", some "boom"] }).FatalErrors = .ok fatal ∧
      (NewJobRun { sampleRun with
          StringFatalErrors := [some "boom"]
          StringAllErrors := [some "retry", some "boom"] }).AllErrors = .ok all ∧
      ((∀ msg ∈ fatal, msg ∈ all) ↔
        (∀ e ∈ [some "boom"], e ∈ [some "retry", some "boom"])) :=
  fatalErrors_subset_allErrors_iff
    { sampleRun with
      StringFatalErrors := [some "boom"]
      StringAllErrors := [some "retry", some "boom"] }
    (by simp) (by simp)

/-! ## The transfer endpoint -/

theorem sendEtherTask_balance_ok (eth : EthClient) (s : NodeState) (req : SendEtherRequest)
    (hfrom : req.FromAddress ≠ ZeroAddress)
    (hdest : req.DestinationAddress ≠ ZeroAddress)
    (hallow : req.AllowHigherAmounts = false)
    (hbal : req.Amount ≤ eth.BalanceAt req.FromAddress) :
    sendEtherTask eth s req =
      (.ok { sender := req.FromAddress, nonce := (Reserve eth s req.FromAddress).1
             recipient := req.DestinationAddress, value := req.Amount },
       { (Reserve eth s req.FromAddress).2 with
         txes := s.txes ++ [{ sender := req.FromAddress
                              nonce := (Reserve eth s req.FromAddress).1
                              recipient := req.DestinationAddress
                              value := req.Amount }] }) := by
  simp [sendEtherTask, hfrom, hdest, hallow, not_lt.mpr hbal, Reserve]

theorem sendEtherTask_balance_low (eth : EthClient) (s : NodeState) (req : SendEtherRequest)
    (hfrom : req.FromAddress ≠ ZeroAddress)
    (hdest : req.DestinationAddress ≠ ZeroAddress)
    (hallow : req.AllowHigherAmounts = false)
    (hbal : eth.BalanceAt req.FromAddress < req.Amount) :
    sendEtherTask eth s req = (.error TransferError.InsufficientBalance, s) := by
  simp [sendEtherTask, hfrom, hdest, hallow, hbal]

/-- The request of `TestTransfersController_TransferZeroAddressError`, from the
zero address to the test destination, is answered 422 whatever the balance. -/
theorem transfer_zero_from_rejected (eth : EthClient) :
    (TransfersController.Create eth NodeState.fresh
      (requestBody { testRequest with FromAddress := ZeroAddress })).1.status = 422 := by
  simp [TransfersController.Create, requestBody, sendEtherTask, testRequest, testDestination,
    ZeroAddress]

/-- C5: for every well-formed transfer request with a non-zero from address,
a non-zero destination address and AllowHigherAmounts false, the endpoint
accepts it (200, empty error list, exactly one transaction row added) if and
only if the amount is at most the sender's balance; otherwise it answers 422
with InsufficientBalance and persists no transaction. -/
theorem transfer_accepted_iff_balance_covers (eth : EthClient) (s : NodeState) (body : Body)
    (req : SendEtherRequest) (hbody : body.bound = some req)
    (hfrom : req.FromAddress ≠ ZeroAddress)
    (hdest : req.DestinationAddress ≠ ZeroAddress)
    (hallow : req.AllowHigherAmounts = false) :
    (((TransfersController.Create eth s body).1.status = 200 ∧
        (TransfersController.Create eth s body).1.errors = [] ∧
        ∃ tx, (TransfersController.Create eth s body).2.txes = s.txes ++ [tx])
      ↔ req.Amount ≤ eth.BalanceAt req.FromAddress) ∧
    (¬ req.Amount ≤ eth.BalanceAt req.FromAddress →
      (TransfersController.Create eth s body).1.status = 422 ∧
      (TransfersController.Create eth s body).1.errors = [TransferError.InsufficientBalance] ∧
      (TransfersController.Create eth s body).2.txes = s.txes) := by
  by_cases hbal : req.Amount ≤ eth.BalanceAt req.FromAddress
  · have ht := sendEtherTask_balance_ok eth { s with dispatched := s.dispatched + 1 } req
      hfrom hdest hallow hbal
    refine ⟨⟨fun _ => hbal, fun _ => ?_⟩, fun h => absurd hbal h⟩
    simp [TransfersController.Create, hbody, ht]
  · have ht := sendEtherTask_balance_low eth { s with dispatched := s.dispatched + 1 } req
      hfrom hdest hallow (not_le.mp hbal)
    refine ⟨⟨fun h => ?_, fun h => absurd h hbal⟩, fun _ => ?_⟩
    · have h200 := h.1
      simp [TransfersController.Create, hbody, ht] at h200
    · simp [TransfersController.Create, hbody, ht]

theorem transfer_accepted_iff_balance_covers_witness :
    ((TransfersController.Create (ethClientWithBalance 200) NodeState.fresh
        (requestBody testRequest)).1.status = 200 ∧
      (TransfersController.Create (ethClientWithBalance 200) NodeState.fresh
        (requestBody testRequest)).1.errors = [] ∧
      ∃ tx, (TransfersController.Create (ethClientWithBalance 200) NodeState.fresh
        (requestBody testRequest)).2.txes = NodeState.fresh.txes ++ [tx]) ∧
    ((TransfersController.Create (ethClientWithBalance 10) NodeState.fresh
        (requestBody testRequest)).1.status = 422 ∧
      (TransfersController.Create (ethClientWithBalance 10) NodeState.fresh
        (requestBody testRequest)).1.errors = [TransferError.InsufficientBalance] ∧
      (TransfersController.Create (ethClientWithBalance 10) NodeState.fresh
        (requestBody testRequest)).2.txes = NodeState.fresh.txes) ∧
    ((TransfersController.Create (ethClientWithBalance 0) NodeState.fresh
        (requestBody testRequest)).1.status = 422 ∧
      (TransfersController.Create (ethClientWithBalance 0) NodeState.fresh
        (requestBody testRequest)).1.errors = [TransferError.InsufficientBalance] ∧
      (TransfersController.Create (ethClientWithBalance 0) NodeState.fresh
        (requestBody testRequest)).2.txes = NodeState.fresh.txes) :=
  ⟨(transfer_accepted_iff_balance_covers (ethClientWithBalance 200) NodeState.fresh
      (requestBody testRequest) testRequest rfl (by decide) (by decide) rfl).1.2 (by decide),
   (transfer_accepted_iff_balance_covers (ethClientWithBalance 10) NodeState.fresh
      (requestBody testRequest) testRequest rfl (by decide) (by decide) rfl).2 (by decide),
   (transfer_accepted_iff_balance_covers (ethClientWithBalance 0) NodeState.fresh
      (requestBody testRequest) testRequest rfl (by decide) (by decide) rfl).2 (by decide)⟩

/-- C6: for every well-formed transfer request whose destination is the zero
address, whatever its amount, from address and AllowHigherAmounts flag, the
task fails with InvalidDestination, the endpoint answers 422, no transaction
is persisted and no nonce is consumed. -/
theorem transfer_zero_destination_rejected (eth : EthClient) (s : NodeState) (body : Body)
    (req : SendEtherRequest) (hbody : body.bound = some req)
    (hdest : req.DestinationAddress = ZeroAddress) :
    (sendEtherTask eth { s with dispatched := s.dispatched + 1 } req).1
      = .error TransferError.InvalidDestination ∧
    (TransfersController.Create eth s body).1.status = 422 ∧
    (TransfersController.Create eth s body).1.errors = [TransferError.InvalidDestination] ∧
    (TransfersController.Create eth s body).2.txes = s.txes ∧
    (TransfersController.Create eth s body).2.nonces = s.nonces := by
  simp [TransfersController.Create, hbody, sendEtherTask, hdest]

theorem transfer_zero_destination_rejected_witness :
    (requestBody { testRequest with
        DestinationAddress := ZeroAddress, AllowHigherAmounts := true }).bound
      = some { testRequest with DestinationAddress := ZeroAddress, AllowHigherAmounts := true } ∧
    ({ testRequest with DestinationAddress := ZeroAddress, AllowHigherAmounts := true }
      : SendEtherRequest).DestinationAddress = ZeroAddress ∧
    (TransfersController.Create (ethClientWithBalance 200) NodeState.fresh
      (requestBody { testRequest with
        DestinationAddress := ZeroAddress, AllowHigherAmounts := true })).1.status = 422 ∧
    (TransfersController.Create (ethClientWithBalance 200) NodeState.fresh
      (requestBody { testRequest with
        DestinationAddress := ZeroAddress, AllowHigherAmounts := true })).2.txes = [] :=
  ⟨rfl, rfl,
   (transfer_zero_destination_rejected (ethClientWithBalance 200) NodeState.fresh
      (requestBody { testRequest with DestinationAddress := ZeroAddress, AllowHigherAmounts := true })
      { testRequest with DestinationAddress := ZeroAddress, AllowHigherAmounts := true }
      rfl rfl).2.1,
   (transfer_zero_destination_rejected (ethClientWithBalance 200) NodeState.fresh
      (requestBody { testRequest with DestinationAddress := ZeroAddress, AllowHigherAmounts := true })
      { testRequest with DestinationAddress := ZeroAddress, AllowHigherAmounts := true }
      rfl rfl).2.2.2.1⟩

/-- C9: for every request body that does not deserialize into a well-formed
transfer request, the endpoint answers 400 (never 422 or 200), dispatches no
task, persists no transaction and touches no nonce. -/
theorem transfer_malformed_body_rejected (eth : EthClient) (s : NodeState) (body : Body)
    (hbody : body.bound = none) :
    (TransfersController.Create eth s body).1.status = 400 ∧
    (TransfersController.Create eth s body).1.status ≠ 422 ∧
    (TransfersController.Create eth s body).1.status ≠ 200 ∧
    (TransfersController.Create eth s body).2.dispatched = s.dispatched ∧
    (TransfersController.Create eth s body).2.txes = s.txes ∧
    (TransfersController.Create eth s body).2.nonces = s.nonces := by
  simp [TransfersController.Create, hbody]

theorem transfer_malformed_body_rejected_witness :
    ({ raw := "\x7b\"address\":\"\"\x7d", bound := none } : Body).bound = none ∧
    (TransfersController.Create (ethClientWithBalance 200) NodeState.fresh
      { raw := "\x7b\"address\":\"\"\x7d", bound := none }).1.status = 400 ∧
    (TransfersController.Create (ethClientWithBalance 200) NodeState.fresh
      { raw := "\x7b\"address\":\"\"\x7d", bound := none }).2.dispatched = 0 ∧
    (TransfersController.Create (ethClientWithBalance 200) NodeState.fresh
      { raw := "\x7b\"address\":\"\"\x7d", bound := none }).2.txes = [] :=
  ⟨rfl,
   (transfer_malformed_body_rejected (ethClientWithBalance 200) NodeState.fresh
      { raw := "\x7b\"address\":\"\"\x7d", bound := none } rfl).1,
   (transfer_malformed_body_rejected (ethClientWithBalance 200) NodeState.fresh
      { raw := "\x7b\"address\":\"\"\x7d", bound := none } rfl).2.2.2.1,
   (transfer_malformed_body_rejected (ethClientWithBalance 200) NodeState.fresh
      { raw := "\x7b\"address\":\"\"\x7d", bound := none } rfl).2.2.2.2.1⟩

end Chainlink
